import Mathlib

/-!
Shallow embedding of the memory-bus and ARM-instruction-display layer of a
Game Boy Advance emulator, together with theorems checking the
natural-language specification against it.

Conventions:
* machine bytes/words are `Nat` (with explicit `% 0x100000000` or `&&& 0xffffff`
  where the source wraps or masks); signed 32-bit quantities are `Int`;
* Rust operations that can panic (slice indexing, `unwrap`) return `Option`;
* the `Cartridge` and `IoRegs` collaborator types are outside the provided
  sources, so the bus is parametrised over their state types and operation
  functions.
-/

/-- Per-region access latency (source: `struct WaitState`): cycle counts for
8-, 16- and 32-bit accesses. -/
structure WaitState where
  access8 : Nat
  access16 : Nat
  access32 : Nat
deriving DecidableEq

/-- Source: `WaitState::new`. -/
def WaitState.new (access8 access16 access32 : Nat) : WaitState :=
  ⟨access8, access16, access32⟩

/-- Source: `impl Default for WaitState` (all-ones wait states). -/
def WaitState.mkDefault : WaitState := WaitState.new 1 1 1

/-- Source: `struct BoxedMemory(Box<[u8]>, WaitState)` — an owned byte buffer
with its wait-state record. -/
structure BoxedMemory where
  data : List Nat
  ws : WaitState
deriving DecidableEq

/-- Source: `BoxedMemory::new`. -/
def BoxedMemory.new (boxed_slice : List Nat) : BoxedMemory :=
  ⟨boxed_slice, WaitState.mkDefault⟩

/-- Source: `BoxedMemory::new_with_waitstate`. -/
def BoxedMemory.new_with_waitstate (boxed_slice : List Nat) (ws : WaitState) : BoxedMemory :=
  ⟨boxed_slice, ws⟩

/-- Width component of a `MemoryAccess` (source: `MemoryAccessWidth` in the
bus trait module; the access-kind component of `MemoryAccess` is ignored by
every `get_cycles` implementation in the provided sources, so only the width
is modelled). -/
inductive MemoryAccessWidth where
  | MemoryAccess8
  | MemoryAccess16
  | MemoryAccess32
deriving DecidableEq

/-- Source: `BoxedMemory::read_8` — byte at `addr`; panics (`none`) out of
bounds. -/
def BoxedMemory.read_8 (m : BoxedMemory) (addr : Nat) : Option Nat :=
  m.data.get? addr

/-- Source: `BoxedMemory::read_16` — little-endian halfword at `addr`. -/
def BoxedMemory.read_16 (m : BoxedMemory) (addr : Nat) : Option Nat :=
  match m.data.get? addr, m.data.get? (addr + 1) with
  | some b0, some b1 => some (b0 + 0x100 * b1)
  | _, _ => none

/-- Source: `BoxedMemory::read_32` — little-endian word at `addr`. -/
def BoxedMemory.read_32 (m : BoxedMemory) (addr : Nat) : Option Nat :=
  match m.data.get? addr, m.data.get? (addr + 1),
        m.data.get? (addr + 2), m.data.get? (addr + 3) with
  | some b0, some b1, some b2, some b3 =>
      some (b0 + 0x100 * b1 + 0x10000 * b2 + 0x1000000 * b3)
  | _, _, _, _ => none

/-- Source: `BoxedMemory::write_8`. -/
def BoxedMemory.write_8 (m : BoxedMemory) (addr value : Nat) : Option BoxedMemory :=
  if addr < m.data.length then
    some ⟨m.data.set addr (value % 0x100), m.ws⟩
  else none

/-- Source: `BoxedMemory::write_16` — little-endian halfword store. -/
def BoxedMemory.write_16 (m : BoxedMemory) (addr value : Nat) : Option BoxedMemory :=
  if addr + 2 ≤ m.data.length then
    some ⟨(m.data.set addr (value % 0x100)).set (addr + 1) (value / 0x100 % 0x100), m.ws⟩
  else none

/-- Source: `BoxedMemory::write_32` — little-endian word store. -/
def BoxedMemory.write_32 (m : BoxedMemory) (addr value : Nat) : Option BoxedMemory :=
  if addr + 4 ≤ m.data.length then
    some ⟨((((m.data.set addr (value % 0x100)).set
        (addr + 1) (value / 0x100 % 0x100)).set
        (addr + 2) (value / 0x10000 % 0x100)).set
        (addr + 3) (value / 0x1000000 % 0x100)), m.ws⟩
  else none

/-- Source: `BoxedMemory::get_bytes` — `&self.0[addr..]`, the suffix of the
buffer from `addr`; panics (`none`) when `addr` exceeds the length. -/
def BoxedMemory.get_bytes (m : BoxedMemory) (addr : Nat) : Option (List Nat) :=
  if addr ≤ m.data.length then some (m.data.drop addr) else none

/-- Source: `BoxedMemory::get_cycles` — ignores the address, selects the
wait-state field by access width. -/
def BoxedMemory.get_cycles (m : BoxedMemory) (_addr : Nat)
    (access : MemoryAccessWidth) : Nat :=
  match access with
  | MemoryAccessWidth.MemoryAccess8 => m.ws.access8
  | MemoryAccessWidth.MemoryAccess16 => m.ws.access16
  | MemoryAccessWidth.MemoryAccess32 => m.ws.access32

/-- Source: `struct DummyBus([u8; 4])` — the open-bus fallback. -/
structure DummyBus where
  bytes : List Nat
deriving DecidableEq

/-- Source: `DummyBus::read_32` — always 0. -/
def DummyBus.read_32 (_ : DummyBus) (_addr : Nat) : Option Nat := some 0

/-- Source: `DummyBus::read_16` — always 0. -/
def DummyBus.read_16 (_ : DummyBus) (_addr : Nat) : Option Nat := some 0

/-- Source: `DummyBus::read_8` — always 0. -/
def DummyBus.read_8 (_ : DummyBus) (_addr : Nat) : Option Nat := some 0

/-- Source: `DummyBus::write_32` — no-op. -/
def DummyBus.write_32 (d : DummyBus) (_addr _value : Nat) : Option DummyBus := some d

/-- Source: `DummyBus::write_16` — no-op. -/
def DummyBus.write_16 (d : DummyBus) (_addr _value : Nat) : Option DummyBus := some d

/-- Source: `DummyBus::write_8` — no-op. -/
def DummyBus.write_8 (d : DummyBus) (_addr _value : Nat) : Option DummyBus := some d

/-- Source: `DummyBus::get_bytes` — returns the whole fixed 4-byte buffer,
ignoring the address. -/
def DummyBus.get_bytes (d : DummyBus) (_addr : Nat) : Option (List Nat) := some d.bytes

/-- Source: `DummyBus::get_cycles` — always 1. -/
def DummyBus.get_cycles (_ : DummyBus) (_addr : Nat) (_access : MemoryAccessWidth) : Nat := 1

/-- The nine dispatch targets of the `call_bus_method!` macro. -/
inductive Region where
  | bios
  | onboard_work_ram
  | internal_work_ram
  | ioregs
  | palette_ram
  | vram
  | oam
  | gamepak
  | dummy
deriving DecidableEq

/-- Source: the `match $addr as usize` arm list of the `call_bus_method!`
macro — inclusive ranges, matched against the UNMASKED address, first match
wins, anything else falls through to the dummy (open-bus) region. -/
def call_bus_region (addr : Nat) : Region :=
  if addr ≤ 0x00003fff then Region.bios
  else if 0x02000000 ≤ addr ∧ addr ≤ 0x0203ffff then Region.onboard_work_ram
  else if 0x03000000 ≤ addr ∧ addr ≤ 0x03007fff then Region.internal_work_ram
  else if 0x04000000 ≤ addr ∧ addr ≤ 0x040003fe then Region.ioregs
  else if 0x05000000 ≤ addr ∧ addr ≤ 0x050003ff then Region.palette_ram
  else if 0x06000000 ≤ addr ∧ addr ≤ 0x06017fff then Region.vram
  else if 0x07000000 ≤ addr ∧ addr ≤ 0x070003ff then Region.oam
  else if 0x08000000 ≤ addr ∧ addr ≤ 0x09ffffff then Region.gamepak
  else Region.dummy

def VIDEO_RAM_SIZE : Nat := 128 * 1024
def WORK_RAM_SIZE : Nat := 256 * 1024
def INTERNAL_RAM : Nat := 32 * 1024
def PALETTE_RAM_SIZE : Nat := 1 * 1024
def OAM_SIZE : Nat := 1 * 1024

/-- Source: `struct SysBus`. The `IoRegs` and `Cartridge` collaborator types
are outside the provided sources, so their states are type parameters. -/
structure SysBus (ι γ : Type) where
  bios : BoxedMemory
  onboard_work_ram : BoxedMemory
  internal_work_ram : BoxedMemory
  ioregs : ι
  palette_ram : BoxedMemory
  vram : BoxedMemory
  oam : BoxedMemory
  gamepak : γ
  dummy : DummyBus

/-- Source: `SysBus::new`. `IoRegs::default()` is outside the provided
sources, so the initial IO-register state is taken as an argument. -/
def SysBus.new {ι γ : Type} (bios_rom : List Nat) (ioregs : ι) (gamepak : γ) :
    SysBus ι γ where
  bios := BoxedMemory.new bios_rom
  onboard_work_ram :=
    BoxedMemory.new_with_waitstate (List.replicate WORK_RAM_SIZE 0) (WaitState.new 3 3 6)
  internal_work_ram := BoxedMemory.new (List.replicate INTERNAL_RAM 0)
  ioregs := ioregs
  palette_ram :=
    BoxedMemory.new_with_waitstate (List.replicate PALETTE_RAM_SIZE 0) (WaitState.new 1 1 2)
  vram :=
    BoxedMemory.new_with_waitstate (List.replicate VIDEO_RAM_SIZE 0) (WaitState.new 1 1 2)
  oam := BoxedMemory.new (List.replicate OAM_SIZE 0)
  gamepak := gamepak
  dummy := DummyBus.mk (List.replicate 4 0)

/-- Source: `impl Bus for SysBus`, `read_8` —
`call_bus_method!(self, addr, read_8, addr & 0xff_ffff)`: the region is
selected by the unmasked address, the low 24 bits are forwarded as offset.
`fio`/`fgp` stand in for the IoRegs/Cartridge implementations. -/
def SysBus.read_8 {ι γ : Type} (fio : ι → Nat → Option Nat) (fgp : γ → Nat → Option Nat)
    (s : SysBus ι γ) (addr : Nat) : Option Nat :=
  match call_bus_region addr with
  | Region.bios => s.bios.read_8 (addr &&& 0xffffff)
  | Region.onboard_work_ram => s.onboard_work_ram.read_8 (addr &&& 0xffffff)
  | Region.internal_work_ram => s.internal_work_ram.read_8 (addr &&& 0xffffff)
  | Region.ioregs => fio s.ioregs (addr &&& 0xffffff)
  | Region.palette_ram => s.palette_ram.read_8 (addr &&& 0xffffff)
  | Region.vram => s.vram.read_8 (addr &&& 0xffffff)
  | Region.oam => s.oam.read_8 (addr &&& 0xffffff)
  | Region.gamepak => fgp s.gamepak (addr &&& 0xffffff)
  | Region.dummy => s.dummy.read_8 (addr &&& 0xffffff)

/-- Source: `impl Bus for SysBus`, `read_16`. -/
def SysBus.read_16 {ι γ : Type} (fio : ι → Nat → Option Nat) (fgp : γ → Nat → Option Nat)
    (s : SysBus ι γ) (addr : Nat) : Option Nat :=
  match call_bus_region addr with
  | Region.bios => s.bios.read_16 (addr &&& 0xffffff)
  | Region.onboard_work_ram => s.onboard_work_ram.read_16 (addr &&& 0xffffff)
  | Region.internal_work_ram => s.internal_work_ram.read_16 (addr &&& 0xffffff)
  | Region.ioregs => fio s.ioregs (addr &&& 0xffffff)
  | Region.palette_ram => s.palette_ram.read_16 (addr &&& 0xffffff)
  | Region.vram => s.vram.read_16 (addr &&& 0xffffff)
  | Region.oam => s.oam.read_16 (addr &&& 0xffffff)
  | Region.gamepak => fgp s.gamepak (addr &&& 0xffffff)
  | Region.dummy => s.dummy.read_16 (addr &&& 0xffffff)

/-- Source: `impl Bus for SysBus`, `read_32`. -/
def SysBus.read_32 {ι γ : Type} (fio : ι → Nat → Option Nat) (fgp : γ → Nat → Option Nat)
    (s : SysBus ι γ) (addr : Nat) : Option Nat :=
  match call_bus_region addr with
  | Region.bios => s.bios.read_32 (addr &&& 0xffffff)
  | Region.onboard_work_ram => s.onboard_work_ram.read_32 (addr &&& 0xffffff)
  | Region.internal_work_ram => s.internal_work_ram.read_32 (addr &&& 0xffffff)
  | Region.ioregs => fio s.ioregs (addr &&& 0xffffff)
  | Region.palette_ram => s.palette_ram.read_32 (addr &&& 0xffffff)
  | Region.vram => s.vram.read_32 (addr &&& 0xffffff)
  | Region.oam => s.oam.read_32 (addr &&& 0xffffff)
  | Region.gamepak => fgp s.gamepak (addr &&& 0xffffff)
  | Region.dummy => s.dummy.read_32 (addr &&& 0xffffff)

/-- Source: `impl Bus for SysBus`, `write_8` — the selected region's state is
replaced by the result of its write (a panic anywhere propagates as `none`). -/
def SysBus.write_8 {ι γ : Type} (fio : ι → Nat → Nat → Option ι)
    (fgp : γ → Nat → Nat → Option γ) (s : SysBus ι γ) (addr value : Nat) :
    Option (SysBus ι γ) :=
  match call_bus_region addr with
  | Region.bios => (s.bios.write_8 (addr &&& 0xffffff) value).map
      (fun m => { s with bios := m })
  | Region.onboard_work_ram => (s.onboard_work_ram.write_8 (addr &&& 0xffffff) value).map
      (fun m => { s with onboard_work_ram := m })
  | Region.internal_work_ram => (s.internal_work_ram.write_8 (addr &&& 0xffffff) value).map
      (fun m => { s with internal_work_ram := m })
  | Region.ioregs => (fio s.ioregs (addr &&& 0xffffff) value).map
      (fun x => { s with ioregs := x })
  | Region.palette_ram => (s.palette_ram.write_8 (addr &&& 0xffffff) value).map
      (fun m => { s with palette_ram := m })
  | Region.vram => (s.vram.write_8 (addr &&& 0xffffff) value).map
      (fun m => { s with vram := m })
  | Region.oam => (s.oam.write_8 (addr &&& 0xffffff) value).map
      (fun m => { s with oam := m })
  | Region.gamepak => (fgp s.gamepak (addr &&& 0xffffff) value).map
      (fun x => { s with gamepak := x })
  | Region.dummy => (s.dummy.write_8 (addr &&& 0xffffff) value).map
      (fun d => { s with dummy := d })

/-- Source: `impl Bus for SysBus`, `write_16`. -/
def SysBus.write_16 {ι γ : Type} (fio : ι → Nat → Nat → Option ι)
    (fgp : γ → Nat → Nat → Option γ) (s : SysBus ι γ) (addr value : Nat) :
    Option (SysBus ι γ) :=
  match call_bus_region addr with
  | Region.bios => (s.bios.write_16 (addr &&& 0xffffff) value).map
      (fun m => { s with bios := m })
  | Region.onboard_work_ram => (s.onboard_work_ram.write_16 (addr &&& 0xffffff) value).map
      (fun m => { s with onboard_work_ram := m })
  | Region.internal_work_ram => (s.internal_work_ram.write_16 (addr &&& 0xffffff) value).map
      (fun m => { s with internal_work_ram := m })
  | Region.ioregs => (fio s.ioregs (addr &&& 0xffffff) value).map
      (fun x => { s with ioregs := x })
  | Region.palette_ram => (s.palette_ram.write_16 (addr &&& 0xffffff) value).map
      (fun m => { s with palette_ram := m })
  | Region.vram => (s.vram.write_16 (addr &&& 0xffffff) value).map
      (fun m => { s with vram := m })
  | Region.oam => (s.oam.write_16 (addr &&& 0xffffff) value).map
      (fun m => { s with oam := m })
  | Region.gamepak => (fgp s.gamepak (addr &&& 0xffffff) value).map
      (fun x => { s with gamepak := x })
  | Region.dummy => (s.dummy.write_16 (addr &&& 0xffffff) value).map
      (fun d => { s with dummy := d })

/-- Source: `impl Bus for SysBus`, `write_32`. -/
def SysBus.write_32 {ι γ : Type} (fio : ι → Nat → Nat → Option ι)
    (fgp : γ → Nat → Nat → Option γ) (s : SysBus ι γ) (addr value : Nat) :
    Option (SysBus ι γ) :=
  match call_bus_region addr with
  | Region.bios => (s.bios.write_32 (addr &&& 0xffffff) value).map
      (fun m => { s with bios := m })
  | Region.onboard_work_ram => (s.onboard_work_ram.write_32 (addr &&& 0xffffff) value).map
      (fun m => { s with onboard_work_ram := m })
  | Region.internal_work_ram => (s.internal_work_ram.write_32 (addr &&& 0xffffff) value).map
      (fun m => { s with internal_work_ram := m })
  | Region.ioregs => (fio s.ioregs (addr &&& 0xffffff) value).map
      (fun x => { s with ioregs := x })
  | Region.palette_ram => (s.palette_ram.write_32 (addr &&& 0xffffff) value).map
      (fun m => { s with palette_ram := m })
  | Region.vram => (s.vram.write_32 (addr &&& 0xffffff) value).map
      (fun m => { s with vram := m })
  | Region.oam => (s.oam.write_32 (addr &&& 0xffffff) value).map
      (fun m => { s with oam := m })
  | Region.gamepak => (fgp s.gamepak (addr &&& 0xffffff) value).map
      (fun x => { s with gamepak := x })
  | Region.dummy => (s.dummy.write_32 (addr &&& 0xffffff) value).map
      (fun d => { s with dummy := d })

/-- Source: `impl Bus for SysBus`, `get_bytes`. -/
def SysBus.get_bytes {ι γ : Type} (fio : ι → Nat → Option (List Nat))
    (fgp : γ → Nat → Option (List Nat)) (s : SysBus ι γ) (addr : Nat) :
    Option (List Nat) :=
  match call_bus_region addr with
  | Region.bios => s.bios.get_bytes (addr &&& 0xffffff)
  | Region.onboard_work_ram => s.onboard_work_ram.get_bytes (addr &&& 0xffffff)
  | Region.internal_work_ram => s.internal_work_ram.get_bytes (addr &&& 0xffffff)
  | Region.ioregs => fio s.ioregs (addr &&& 0xffffff)
  | Region.palette_ram => s.palette_ram.get_bytes (addr &&& 0xffffff)
  | Region.vram => s.vram.get_bytes (addr &&& 0xffffff)
  | Region.oam => s.oam.get_bytes (addr &&& 0xffffff)
  | Region.gamepak => fgp s.gamepak (addr &&& 0xffffff)
  | Region.dummy => s.dummy.get_bytes (addr &&& 0xffffff)

/-- Source: `impl Bus for SysBus`, `get_cycles`. -/
def SysBus.get_cycles {ι γ : Type} (fio : ι → Nat → MemoryAccessWidth → Nat)
    (fgp : γ → Nat → MemoryAccessWidth → Nat) (s : SysBus ι γ) (addr : Nat)
    (access : MemoryAccessWidth) : Nat :=
  match call_bus_region addr with
  | Region.bios => s.bios.get_cycles (addr &&& 0xffffff) access
  | Region.onboard_work_ram => s.onboard_work_ram.get_cycles (addr &&& 0xffffff) access
  | Region.internal_work_ram => s.internal_work_ram.get_cycles (addr &&& 0xffffff) access
  | Region.ioregs => fio s.ioregs (addr &&& 0xffffff) access
  | Region.palette_ram => s.palette_ram.get_cycles (addr &&& 0xffffff) access
  | Region.vram => s.vram.get_cycles (addr &&& 0xffffff) access
  | Region.oam => s.oam.get_cycles (addr &&& 0xffffff) access
  | Region.gamepak => fgp s.gamepak (addr &&& 0xffffff) access
  | Region.dummy => s.dummy.get_cycles (addr &&& 0xffffff) access

/-- Source: `enum ArmCond` (condition codes). -/
inductive ArmCond where
  | EQ | NE | HS | LO | MI | PL | VS | VC | HI | LS | GE | LT | GT | LE | AL
deriving DecidableEq

/-- Source: `impl fmt::Display for ArmCond` — two-letter suffixes, empty for
the always condition. -/
def ArmCond.display : ArmCond → String
  | ArmCond.EQ => "eq"
  | ArmCond.NE => "ne"
  | ArmCond.HS => "cs"
  | ArmCond.LO => "cc"
  | ArmCond.MI => "mi"
  | ArmCond.PL => "pl"
  | ArmCond.VS => "vs"
  | ArmCond.VC => "vc"
  | ArmCond.HI => "hi"
  | ArmCond.LS => "ls"
  | ArmCond.GE => "ge"
  | ArmCond.LT => "lt"
  | ArmCond.GT => "gt"
  | ArmCond.LE => "le"
  | ArmCond.AL => ""

/-- Source: `enum BarrelShiftOpCode`. -/
inductive BarrelShiftOpCode where
  | LSL | LSR | ASR | ROR
deriving DecidableEq

/-- Source: `impl fmt::Display for BarrelShiftOpCode`. -/
def BarrelShiftOpCode.display : BarrelShiftOpCode → String
  | BarrelShiftOpCode.LSL => "lsl"
  | BarrelShiftOpCode.LSR => "lsr"
  | BarrelShiftOpCode.ASR => "asr"
  | BarrelShiftOpCode.ROR => "ror"

/-- Source: `enum ArmHalfwordTransferType`. -/
inductive ArmHalfwordTransferType where
  | UnsignedHalfwords
  | SignedHalfwords
  | SignedByte
deriving DecidableEq

/-- Source: `impl fmt::Display for ArmHalfwordTransferType`. -/
def ArmHalfwordTransferType.display : ArmHalfwordTransferType → String
  | ArmHalfwordTransferType.UnsignedHalfwords => "h"
  | ArmHalfwordTransferType.SignedHalfwords => "sh"
  | ArmHalfwordTransferType.SignedByte => "sb"

/-- Source: `enum ShiftedRegister` — a shift by an immediate 0–31 amount or
by the low byte of a register, together with the shift operator. -/
inductive ShiftedRegister where
  | ByAmount (val : Nat) (typ : BarrelShiftOpCode)
  | ByRegister (rs : Nat) (typ : BarrelShiftOpCode)
deriving DecidableEq

/-- Source: `enum BarrelShifterValue` — operand2 / addressing-mode offset. -/
inductive BarrelShifterValue where
  | RotatedImmediate (value rotate : Nat)
  | ShiftedRegister (reg : Nat) (shift : ShiftedRegister) (added : Option Bool)
  | ImmediateValue (value : Int)
deriving DecidableEq

/-- The program-counter register index (source: `REG_PC`). -/
def REG_PC : Nat := 15

/-- Modelled from the spec: the register-naming helper `reg_string` is outside
the provided sources; the spec fixes only "general registers plus a
program-counter alias". -/
def reg_string (reg : Nat) : String :=
  if reg == REG_PC then "pc" else "r" ++ toString reg

/-- Source: `fn is_shift` in `display.rs` — false exactly for the canonical
no-shift form `ByAmount 0 LSL`. -/
def is_shift (shift : ShiftedRegister) : Bool :=
  match shift with
  | ShiftedRegister.ByAmount val typ =>
      !(val == 0 && typ == BarrelShiftOpCode.LSL)
  | ShiftedRegister.ByRegister _ _ => true

/-- Source: `ArmInstruction::make_shifted_reg_string` (does not use `self`,
so defined standalone): the register alone for the no-shift form, otherwise
`"reg, op amount"`. -/
def make_shifted_reg_string (reg : Nat) (shift : ShiftedRegister) : String :=
  let r := reg_string reg
  if !(is_shift shift) then r
  else
    match shift with
    | ShiftedRegister.ByAmount imm typ =>
        r ++ ", " ++ typ.display ++ " #" ++ toString imm
    | ShiftedRegister.ByRegister rs typ =>
        r ++ ", " ++ typ.display ++ " " ++ reg_string rs

/-- Rust's `{:#x}` for an unsigned value: `0x` followed by lowercase hex
digits. -/
def format_hex (n : Nat) : String :=
  "0x" ++ String.mk (Nat.toDigits 16 n)

/-- Modelled from the spec: the decoded `ArmInstruction` record. Its field
accessors (`link_flag()`, `branch_offset()`, `rn()`, ... defined in the
instruction module, which is outside the provided sources) are represented
directly as fields holding their decoded values: `branch_offset` is the
sign-extended word-aligned branch offset as a signed value,
`halfword_data_transfer_type` is the decoded type field (`none` when the
field matches no recognized pattern), `ldr_str_hs_offset` is `none` when the
offset accessor would fail, and `pc` is the fetch-time program counter. -/
structure ArmInstruction where
  cond : ArmCond
  pc : Nat
  link_flag : Bool
  branch_offset : Int
  rn : Nat
  rd : Nat
  load_flag : Bool
  pre_index_flag : Bool
  write_back_flag : Bool
  transfer_size : Nat
  ldr_str_offset : BarrelShifterValue
  halfword_data_transfer_type : Option ArmHalfwordTransferType
  ldr_str_hs_offset : Option BarrelShifterValue

/-- Source: the `ofs` argument of `ArmInstruction::fmt_branch`:
`8 + self.pc.wrapping_add(self.branch_offset() as Addr)` with `Addr = u32`
arithmetic (the `as Addr` cast takes the offset's two's-complement bits). -/
def ArmInstruction.branch_target (i : ArmInstruction) : Nat :=
  (8 + (i.pc + (i.branch_offset % 0x100000000).toNat) % 0x100000000) % 0x100000000

/-- Source: `ArmInstruction::fmt_branch` —
`"b{link}{cond}\t{ofs:#x}"`. -/
def ArmInstruction.fmt_branch (i : ArmInstruction) : String :=
  "b" ++ (if i.link_flag then "l" else "") ++ i.cond.display ++ "\t"
    ++ format_hex i.branch_target

/-- Source: `ArmInstruction::fmt_rn_offset` — renders `[base, #imm]` /
`[base], #imm` (or a shifted-register offset with sign), appending a hex
comment for immediate offsets; the comment value gets the +8 pipelining
correction exactly when the base register is the program counter. The
`{:#x}` of the Rust `i32` shows its two's-complement bits. A `panic!` on any
other offset shape is `none`. -/
def ArmInstruction.fmt_rn_offset (i : ArmInstruction) (offset : BarrelShifterValue) :
    Option String :=
  match offset with
  | BarrelShifterValue.ImmediateValue value =>
      let value_for_commnet : Int :=
        if i.rn == REG_PC then value + (i.pc : Int) + 8 else value
      let ofs_string := "#" ++ toString value
      let comment := "\t; " ++ format_hex ((value_for_commnet % 0x100000000).toNat)
      some ((if i.pre_index_flag then
              "[" ++ reg_string i.rn ++ ", " ++ ofs_string ++ "]"
                ++ (if i.write_back_flag then "!" else "")
            else
              "[" ++ reg_string i.rn ++ "], " ++ ofs_string) ++ comment)
  | BarrelShifterValue.ShiftedRegister reg shift (some added) =>
      let ofs_string :=
        (if added then "" else "-") ++ make_shifted_reg_string reg shift
      some (if i.pre_index_flag then
              "[" ++ reg_string i.rn ++ ", " ++ ofs_string ++ "]"
                ++ (if i.write_back_flag then "!" else "")
            else
              "[" ++ reg_string i.rn ++ "], " ++ ofs_string)
  | _ => none

/-- The `{mnem}{B}` part of `ArmInstruction::fmt_ldr_str`: `ldr`/`str` by the
load flag, `b` suffix when the transfer size is one byte. -/
def ldr_str_mnemonic (i : ArmInstruction) : String :=
  (if i.load_flag then "ldr" else "str")
    ++ (if i.transfer_size == 1 then "b" else "")

/-- Source: `ArmInstruction::fmt_ldr_str` —
`"{mnem}{B}{T}{cond}\t{Rd}, "` followed by the rendered offset; the `t`
(translate) suffix appears exactly when not pre-indexed and write-back is
set. -/
def ArmInstruction.fmt_ldr_str (i : ArmInstruction) : Option String :=
  (i.fmt_rn_offset i.ldr_str_offset).map (fun rest =>
    ldr_str_mnemonic i
      ++ (if !i.pre_index_flag && i.write_back_flag then "t" else "")
      ++ i.cond.display ++ "\t" ++ reg_string i.rd ++ ", " ++ rest)

/-- Source: `ArmInstruction::fmt_ldr_str_hs` — when the halfword transfer
type is recognized, renders `"{mnem}{type}{cond}\t{Rd}, "` plus the offset
(the source's `.unwrap()` on the offset accessor is a potential panic,
`none`); otherwise writes the literal marker `<undefined>` and succeeds. -/
def ArmInstruction.fmt_ldr_str_hs (i : ArmInstruction) : Option String :=
  match i.halfword_data_transfer_type with
  | some transfer_type =>
      match i.ldr_str_hs_offset with
      | some ofs =>
          (i.fmt_rn_offset ofs).map (fun rest =>
            (if i.load_flag then "ldr" else "str") ++ transfer_type.display
              ++ i.cond.display ++ "\t" ++ reg_string i.rd ++ ", " ++ rest)
      | none => none
  | none => some "<undefined>"

/- Helper lemmas and concrete instances shared by several checks. -/

theorem call_bus_region_eq_onboard {addr : Nat} (h1 : 0x02000000 ≤ addr)
    (h2 : addr ≤ 0x0203ffff) : call_bus_region addr = Region.onboard_work_ram := by
  unfold call_bus_region
  rw [if_neg (by omega), if_pos (by omega)]

theorem call_bus_region_eq_internal {addr : Nat} (h1 : 0x03000000 ≤ addr)
    (h2 : addr ≤ 0x03007fff) : call_bus_region addr = Region.internal_work_ram := by
  unfold call_bus_region
  rw [if_neg (by omega), if_neg (by omega), if_pos (by omega)]

theorem call_bus_region_eq_palette {addr : Nat} (h1 : 0x05000000 ≤ addr)
    (h2 : addr ≤ 0x050003ff) : call_bus_region addr = Region.palette_ram := by
  unfold call_bus_region
  rw [if_neg (by omega), if_neg (by omega), if_neg (by omega), if_neg (by omega),
    if_pos (by omega)]

theorem call_bus_region_eq_vram {addr : Nat} (h1 : 0x06000000 ≤ addr)
    (h2 : addr ≤ 0x06017fff) : call_bus_region addr = Region.vram := by
  unfold call_bus_region
  rw [if_neg (by omega), if_neg (by omega), if_neg (by omega), if_neg (by omega),
    if_neg (by omega), if_pos (by omega)]

/-- A freshly constructed bus over trivial collaborator states, used as a
concrete evaluation vehicle. -/
def demoBus : SysBus Unit Unit := SysBus.new [] () ()

/-- Trivial external read implementation for the abstract collaborators. -/
def noR : Unit → Nat → Option Nat := fun _ _ => none

/-- Trivial external write implementation for the abstract collaborators. -/
def noW : Unit → Nat → Nat → Option Unit := fun _ _ _ => none

/-- Trivial external byte-slice implementation for the abstract collaborators. -/
def noBytes : Unit → Nat → Option (List Nat) := fun _ _ => none

/-- Trivial external cycle-cost implementation for the abstract collaborators. -/
def noCycles : Unit → Nat → MemoryAccessWidth → Nat := fun _ _ _ => 0

/-- C1 (counterexample): the claim says two addresses sharing the same low
24 bits always resolve to the identical region, because the bus allegedly
masks before matching. In the code the region match is on the UNMASKED
address: `0x02001000` and `0x0a001000` share their low 24 bits, yet the
first resolves to onboard work RAM and the second to the open-bus fallback,
observably giving different cycle costs. -/
theorem c1_mask_before_match_counterexample :
    (0x02001000 &&& 0xffffff) = ((0x0a001000 &&& 0xffffff : Nat)) ∧
    call_bus_region 0x02001000 = Region.onboard_work_ram ∧
    call_bus_region 0x0a001000 = Region.dummy ∧
    SysBus.get_cycles noCycles noCycles demoBus 0x02001000
      MemoryAccessWidth.MemoryAccess8 = 3 ∧
    SysBus.get_cycles noCycles noCycles demoBus 0x0a001000
      MemoryAccessWidth.MemoryAccess8 = 1 := by
  refine ⟨by decide, by decide, by decide, ?_, ?_⟩ <;> decide

/-- C1 (amended): every bus operation forwards the low 24 bits of the
address as the byte offset, but selects the region by matching the UNMASKED
address; hence two addresses that share their low 24 bits AND resolve to the
same region behave identically at every width, for byte-slice retrieval and
for cycle cost — sharing the low 24 bits alone does not force the same
region. -/
theorem c1_mask_offset_same_region {ι γ : Type}
    (fior8 fior16 fior32 : ι → Nat → Option Nat)
    (fgpr8 fgpr16 fgpr32 : γ → Nat → Option Nat)
    (fiow8 fiow16 fiow32 : ι → Nat → Nat → Option ι)
    (fgpw8 fgpw16 fgpw32 : γ → Nat → Nat → Option γ)
    (fiob : ι → Nat → Option (List Nat)) (fgpb : γ → Nat → Option (List Nat))
    (fioc : ι → Nat → MemoryAccessWidth → Nat)
    (fgpc : γ → Nat → MemoryAccessWidth → Nat)
    (s : SysBus ι γ) (a b value : Nat) (access : MemoryAccessWidth)
    (hmask : a &&& 0xffffff = b &&& 0xffffff)
    (hregion : call_bus_region a = call_bus_region b) :
    SysBus.read_8 fior8 fgpr8 s a = SysBus.read_8 fior8 fgpr8 s b ∧
    SysBus.read_16 fior16 fgpr16 s a = SysBus.read_16 fior16 fgpr16 s b ∧
    SysBus.read_32 fior32 fgpr32 s a = SysBus.read_32 fior32 fgpr32 s b ∧
    SysBus.write_8 fiow8 fgpw8 s a value = SysBus.write_8 fiow8 fgpw8 s b value ∧
    SysBus.write_16 fiow16 fgpw16 s a value = SysBus.write_16 fiow16 fgpw16 s b value ∧
    SysBus.write_32 fiow32 fgpw32 s a value = SysBus.write_32 fiow32 fgpw32 s b value ∧
    SysBus.get_bytes fiob fgpb s a = SysBus.get_bytes fiob fgpb s b ∧
    SysBus.get_cycles fioc fgpc s a access = SysBus.get_cycles fioc fgpc s b access := by
  refine ⟨?_, ?_, ?_, ?_, ?_, ?_, ?_, ?_⟩
  · unfold SysBus.read_8; rw [hmask, hregion]
  · unfold SysBus.read_16; rw [hmask, hregion]
  · unfold SysBus.read_32; rw [hmask, hregion]
  · unfold SysBus.write_8; rw [hmask, hregion]
  · unfold SysBus.write_16; rw [hmask, hregion]
  · unfold SysBus.write_32; rw [hmask, hregion]
  · unfold SysBus.get_bytes; rw [hmask, hregion]
  · unfold SysBus.get_cycles; rw [hmask, hregion]

/-- Witness for the amended C1 statement at a concrete pair of gamepak
addresses sharing their low 24 bits and their region. -/
theorem c1_mask_offset_same_region_witness :
    SysBus.read_8 noR noR demoBus 0x08000000 = SysBus.read_8 noR noR demoBus 0x09000000 ∧
    SysBus.read_16 noR noR demoBus 0x08000000 = SysBus.read_16 noR noR demoBus 0x09000000 ∧
    SysBus.read_32 noR noR demoBus 0x08000000 = SysBus.read_32 noR noR demoBus 0x09000000 ∧
    SysBus.write_8 noW noW demoBus 0x08000000 7 = SysBus.write_8 noW noW demoBus 0x09000000 7 ∧
    SysBus.write_16 noW noW demoBus 0x08000000 7 = SysBus.write_16 noW noW demoBus 0x09000000 7 ∧
    SysBus.write_32 noW noW demoBus 0x08000000 7 = SysBus.write_32 noW noW demoBus 0x09000000 7 ∧
    SysBus.get_bytes noBytes noBytes demoBus 0x08000000 =
      SysBus.get_bytes noBytes noBytes demoBus 0x09000000 ∧
    SysBus.get_cycles noCycles noCycles demoBus 0x08000000 MemoryAccessWidth.MemoryAccess8 =
      SysBus.get_cycles noCycles noCycles demoBus 0x09000000 MemoryAccessWidth.MemoryAccess8 :=
  c1_mask_offset_same_region noR noR noR noR noR noR noW noW noW noW noW noW
    noBytes noBytes noCycles noCycles demoBus 0x08000000 0x09000000 7
    MemoryAccessWidth.MemoryAccess8 (by decide) (by decide)

/-- C2: address `0x00003fff` resolves to the boot ROM and `0x00004000` to the
open-bus fallback; at every address resolving to the fallback, reads of all
three widths return 0, writes of all three widths leave the whole bus state
unchanged, and the cycle cost is 1 at every width. -/
theorem c2_open_bus_fallback {ι γ : Type}
    (fior8 fior16 fior32 : ι → Nat → Option Nat)
    (fgpr8 fgpr16 fgpr32 : γ → Nat → Option Nat)
    (fiow8 fiow16 fiow32 : ι → Nat → Nat → Option ι)
    (fgpw8 fgpw16 fgpw32 : γ → Nat → Nat → Option γ)
    (fioc : ι → Nat → MemoryAccessWidth → Nat)
    (fgpc : γ → Nat → MemoryAccessWidth → Nat) (s : SysBus ι γ) :
    call_bus_region 0x00003fff = Region.bios ∧
    call_bus_region 0x00004000 = Region.dummy ∧
    ∀ addr, call_bus_region addr = Region.dummy → ∀ value access,
      SysBus.read_8 fior8 fgpr8 s addr = some 0 ∧
      SysBus.read_16 fior16 fgpr16 s addr = some 0 ∧
      SysBus.read_32 fior32 fgpr32 s addr = some 0 ∧
      SysBus.write_8 fiow8 fgpw8 s addr value = some s ∧
      SysBus.write_16 fiow16 fgpw16 s addr value = some s ∧
      SysBus.write_32 fiow32 fgpw32 s addr value = some s ∧
      SysBus.get_cycles fioc fgpc s addr access = 1 := by
  refine ⟨by decide, by decide, ?_⟩
  intro addr h value access
  refine ⟨?_, ?_, ?_, ?_, ?_, ?_, ?_⟩ <;>
    simp [SysBus.read_8, SysBus.read_16, SysBus.read_32, SysBus.write_8,
      SysBus.write_16, SysBus.write_32, SysBus.get_cycles, h, DummyBus.read_8,
      DummyBus.read_16, DummyBus.read_32, DummyBus.write_8, DummyBus.write_16,
      DummyBus.write_32, DummyBus.get_cycles]

/-- Witness for C2 at the concrete fallback address `0x00004000` on a freshly
constructed bus. -/
theorem c2_open_bus_fallback_witness :
    SysBus.read_8 noR noR demoBus 0x00004000 = some 0 ∧
    SysBus.read_16 noR noR demoBus 0x00004000 = some 0 ∧
    SysBus.read_32 noR noR demoBus 0x00004000 = some 0 ∧
    SysBus.write_8 noW noW demoBus 0x00004000 7 = some demoBus ∧
    SysBus.write_16 noW noW demoBus 0x00004000 7 = some demoBus ∧
    SysBus.write_32 noW noW demoBus 0x00004000 7 = some demoBus ∧
    SysBus.get_cycles noCycles noCycles demoBus 0x00004000
      MemoryAccessWidth.MemoryAccess32 = 1 :=
  (c2_open_bus_fallback noR noR noR noR noR noR noW noW noW noW noW noW
      noCycles noCycles demoBus).2.2 0x00004000 (by decide) 7
    MemoryAccessWidth.MemoryAccess32

/-- C8: on a freshly constructed bus, cycle-cost lookups give (3,3,6) inside
the onboard work RAM range, (1,1,1) inside internal work RAM, and (1,1,2)
inside palette RAM and video RAM, for (8,16,32)-bit access respectively. -/
theorem c8_wait_state_lookup {ι γ : Type}
    (fioc : ι → Nat → MemoryAccessWidth → Nat)
    (fgpc : γ → Nat → MemoryAccessWidth → Nat)
    (bios_rom : List Nat) (iod : ι) (gpd : γ) :
    (∀ addr, 0x02000000 ≤ addr → addr ≤ 0x0203ffff →
      SysBus.get_cycles fioc fgpc (SysBus.new bios_rom iod gpd) addr
        MemoryAccessWidth.MemoryAccess8 = 3 ∧
      SysBus.get_cycles fioc fgpc (SysBus.new bios_rom iod gpd) addr
        MemoryAccessWidth.MemoryAccess16 = 3 ∧
      SysBus.get_cycles fioc fgpc (SysBus.new bios_rom iod gpd) addr
        MemoryAccessWidth.MemoryAccess32 = 6) ∧
    (∀ addr, 0x03000000 ≤ addr → addr ≤ 0x03007fff →
      SysBus.get_cycles fioc fgpc (SysBus.new bios_rom iod gpd) addr
        MemoryAccessWidth.MemoryAccess8 = 1 ∧
      SysBus.get_cycles fioc fgpc (SysBus.new bios_rom iod gpd) addr
        MemoryAccessWidth.MemoryAccess16 = 1 ∧
      SysBus.get_cycles fioc fgpc (SysBus.new bios_rom iod gpd) addr
        MemoryAccessWidth.MemoryAccess32 = 1) ∧
    (∀ addr, 0x05000000 ≤ addr → addr ≤ 0x050003ff →
      SysBus.get_cycles fioc fgpc (SysBus.new bios_rom iod gpd) addr
        MemoryAccessWidth.MemoryAccess8 = 1 ∧
      SysBus.get_cycles fioc fgpc (SysBus.new bios_rom iod gpd) addr
        MemoryAccessWidth.MemoryAccess16 = 1 ∧
      SysBus.get_cycles fioc fgpc (SysBus.new bios_rom iod gpd) addr
        MemoryAccessWidth.MemoryAccess32 = 2) ∧
    (∀ addr, 0x06000000 ≤ addr → addr ≤ 0x06017fff →
      SysBus.get_cycles fioc fgpc (SysBus.new bios_rom iod gpd) addr
        MemoryAccessWidth.MemoryAccess8 = 1 ∧
      SysBus.get_cycles fioc fgpc (SysBus.new bios_rom iod gpd) addr
        MemoryAccessWidth.MemoryAccess16 = 1 ∧
      SysBus.get_cycles fioc fgpc (SysBus.new bios_rom iod gpd) addr
        MemoryAccessWidth.MemoryAccess32 = 2) := by
  refine ⟨fun addr h1 h2 => ?_, fun addr h1 h2 => ?_, fun addr h1 h2 => ?_,
    fun addr h1 h2 => ?_⟩
  · simp [SysBus.get_cycles, call_bus_region_eq_onboard h1 h2, SysBus.new,
      BoxedMemory.new_with_waitstate, BoxedMemory.get_cycles, WaitState.new]
  · simp [SysBus.get_cycles, call_bus_region_eq_internal h1 h2, SysBus.new,
      BoxedMemory.new, BoxedMemory.get_cycles, WaitState.new, WaitState.mkDefault]
  · simp [SysBus.get_cycles, call_bus_region_eq_palette h1 h2, SysBus.new,
      BoxedMemory.new_with_waitstate, BoxedMemory.get_cycles, WaitState.new]
  · simp [SysBus.get_cycles, call_bus_region_eq_vram h1 h2, SysBus.new,
      BoxedMemory.new_with_waitstate, BoxedMemory.get_cycles, WaitState.new]

/-- Witness for C8 at one concrete in-range address per region. -/
theorem c8_wait_state_lookup_witness :
    (SysBus.get_cycles noCycles noCycles demoBus 0x02000000
        MemoryAccessWidth.MemoryAccess8 = 3 ∧
      SysBus.get_cycles noCycles noCycles demoBus 0x02000000
        MemoryAccessWidth.MemoryAccess16 = 3 ∧
      SysBus.get_cycles noCycles noCycles demoBus 0x02000000
        MemoryAccessWidth.MemoryAccess32 = 6) ∧
    (SysBus.get_cycles noCycles noCycles demoBus 0x03001234
        MemoryAccessWidth.MemoryAccess8 = 1 ∧
      SysBus.get_cycles noCycles noCycles demoBus 0x03001234
        MemoryAccessWidth.MemoryAccess16 = 1 ∧
      SysBus.get_cycles noCycles noCycles demoBus 0x03001234
        MemoryAccessWidth.MemoryAccess32 = 1) ∧
    (SysBus.get_cycles noCycles noCycles demoBus 0x05000200
        MemoryAccessWidth.MemoryAccess8 = 1 ∧
      SysBus.get_cycles noCycles noCycles demoBus 0x05000200
        MemoryAccessWidth.MemoryAccess16 = 1 ∧
      SysBus.get_cycles noCycles noCycles demoBus 0x05000200
        MemoryAccessWidth.MemoryAccess32 = 2) ∧
    (SysBus.get_cycles noCycles noCycles demoBus 0x06010000
        MemoryAccessWidth.MemoryAccess8 = 1 ∧
      SysBus.get_cycles noCycles noCycles demoBus 0x06010000
        MemoryAccessWidth.MemoryAccess16 = 1 ∧
      SysBus.get_cycles noCycles noCycles demoBus 0x06010000
        MemoryAccessWidth.MemoryAccess32 = 2) := by
  have h := c8_wait_state_lookup noCycles noCycles [] () ()
  exact ⟨h.1 0x02000000 (by decide) (by decide),
    h.2.1 0x03001234 (by decide) (by decide),
    h.2.2.1 0x05000200 (by decide) (by decide),
    h.2.2.2 0x06010000 (by decide) (by decide)⟩

/-- The regions whose backing store is a `BoxedMemory` owned directly by the
bus (the IO-register block and cartridge are external collaborators). -/
def SysBus.boxed_region {ι γ : Type} (s : SysBus ι γ) : Region → Option BoxedMemory
  | Region.bios => some s.bios
  | Region.onboard_work_ram => some s.onboard_work_ram
  | Region.internal_work_ram => some s.internal_work_ram
  | Region.palette_ram => some s.palette_ram
  | Region.vram => some s.vram
  | Region.oam => some s.oam
  | _ => none

/-- C9 (counterexample): the claim says byte-slice retrieval returns the
suffix of the resolved region buffer starting at the resolved offset, for
every address the bus resolves INCLUDING the open-bus fallback. At
`0x0a000001` the bus resolves to the fallback with byte offset 1, yet
returns the whole fixed 4-byte buffer rather than its length-3 suffix. -/
theorem c9_get_bytes_counterexample :
    call_bus_region 0x0a000001 = Region.dummy ∧
    (0x0a000001 &&& 0xffffff) = 1 ∧
    SysBus.get_bytes noBytes noBytes demoBus 0x0a000001 = some [0, 0, 0, 0] ∧
    SysBus.get_bytes noBytes noBytes demoBus 0x0a000001 ≠
      some (demoBus.dummy.bytes.drop (0x0a000001 &&& 0xffffff)) := by
  refine ⟨by decide, by decide, by decide, by decide⟩

/-- C9 (amended): for every address resolving to a region backed directly by
a `BoxedMemory` buffer, with the masked offset in bounds, byte-slice
retrieval returns exactly the suffix of that buffer from the offset, whose
length is the buffer length minus the offset; an address resolving to the
open-bus fallback instead yields the fallback whole fixed 4-byte buffer,
regardless of the offset. -/
theorem c9_get_bytes_amended {ι γ : Type}
    (fiob : ι → Nat → Option (List Nat)) (fgpb : γ → Nat → Option (List Nat))
    (s : SysBus ι γ) (addr : Nat) :
    (∀ m, s.boxed_region (call_bus_region addr) = some m →
      (addr &&& 0xffffff) ≤ m.data.length →
      SysBus.get_bytes fiob fgpb s addr = some (m.data.drop (addr &&& 0xffffff)) ∧
      (m.data.drop (addr &&& 0xffffff)).length = m.data.length - (addr &&& 0xffffff)) ∧
    (call_bus_region addr = Region.dummy →
      SysBus.get_bytes fiob fgpb s addr = some s.dummy.bytes) := by
  constructor
  · intro m hm hlen
    rcases hreg : call_bus_region addr <;>
      rw [hreg] at hm <;>
      simp [SysBus.boxed_region] at hm <;>
      subst hm <;>
      exact ⟨by simp [SysBus.get_bytes, hreg, BoxedMemory.get_bytes, hlen],
        by simp⟩
  · intro hreg
    simp [SysBus.get_bytes, hreg, DummyBus.get_bytes]

/-- A small concrete bus whose boot-ROM buffer is `[5, 6, 7]`, used to
evaluate the amended C9 statement. -/
def tinyBus : SysBus Unit Unit :=
  { bios := BoxedMemory.new [5, 6, 7],
    onboard_work_ram := BoxedMemory.new [],
    internal_work_ram := BoxedMemory.new [],
    ioregs := (),
    palette_ram := BoxedMemory.new [],
    vram := BoxedMemory.new [],
    oam := BoxedMemory.new [],
    gamepak := (),
    dummy := DummyBus.mk [0, 0, 0, 0] }

/-- Witness for the amended C9 statement: boot-ROM address 1 on `tinyBus`
yields the suffix `[6, 7]` of length `3 - 1`. -/
theorem c9_get_bytes_amended_witness :
    SysBus.get_bytes noBytes noBytes tinyBus 0x00000001 =
      some ((BoxedMemory.new [5, 6, 7]).data.drop (0x00000001 &&& 0xffffff)) ∧
    ((BoxedMemory.new [5, 6, 7]).data.drop (0x00000001 &&& 0xffffff)).length =
      (BoxedMemory.new [5, 6, 7]).data.length - (0x00000001 &&& 0xffffff) ∧
    SysBus.get_bytes noBytes noBytes tinyBus 0x00000001 = some [6, 7] := by
  have h := (c9_get_bytes_amended noBytes noBytes tinyBus 0x00000001).1
    (BoxedMemory.new [5, 6, 7]) (by decide) (by decide)
  exact ⟨h.1, h.2, by decide⟩

/-- C3: the rendered shifted-register operand is the register name alone
exactly when the operand is the by-immediate-amount form with amount 0 and
operator logical-shift-left; every other form renders an explicit shift
annotation. -/
theorem c3_canonical_no_shift (reg : Nat) (shift : ShiftedRegister) :
    make_shifted_reg_string reg shift = reg_string reg ↔
      shift = ShiftedRegister.ByAmount 0 BarrelShiftOpCode.LSL := by
  have l1 : (", " : String).length = 2 := rfl
  have l2 : (" #" : String).length = 2 := rfl
  have l3 : (" " : String).length = 1 := rfl
  cases shift with
  | ByAmount v t =>
      rcases Decidable.em (v = 0 ∧ t = BarrelShiftOpCode.LSL) with h | h
      · obtain ⟨h0, ht⟩ := h
        subst h0; subst ht
        simp [make_shifted_reg_string, is_shift]
      · have hs : is_shift (ShiftedRegister.ByAmount v t) = true := by
          by_cases h0 : v = 0 <;> by_cases h1 : t = BarrelShiftOpCode.LSL <;>
            simp [is_shift, h0, h1]
          exact absurd ⟨h0, h1⟩ h
        apply iff_of_false
        · intro heq
          simp only [make_shifted_reg_string, hs, Bool.not_true,
            Bool.false_eq_true, if_false] at heq
          have hL := congrArg String.length heq
          simp only [String.length_append, l1, l2] at hL
          omega
        · intro hr
          injection hr with hv ht
          exact h ⟨hv, ht⟩
  | ByRegister rs t =>
      apply iff_of_false
      · intro heq
        simp only [make_shifted_reg_string, is_shift, Bool.not_true,
          Bool.false_eq_true, if_false] at heq
        have hL := congrArg String.length heq
        simp only [String.length_append, l1, l3] at hL
        omega
      · simp

/-- C4: the value rendered as the branch target equals
fetch-PC + 8 + branch offset modulo 2^32, and the rendered line is the
linked form `bl...` exactly when the link bit is set. -/
theorem c4_branch_render (i : ArmInstruction) (_h : i.pc < 0x100000000) :
    (i.branch_target : Int) = ((i.pc : Int) + 8 + i.branch_offset) % 0x100000000 ∧
    (i.fmt_branch = "bl" ++ i.cond.display ++ "\t" ++ format_hex i.branch_target ↔
      i.link_flag = true) := by
  constructor
  · unfold ArmInstruction.branch_target
    have h0 : (0 : Int) ≤ i.branch_offset % 0x100000000 :=
      Int.emod_nonneg _ (by norm_num)
    have h1 : i.branch_offset % 0x100000000 < 0x100000000 :=
      Int.emod_lt_of_pos _ (by norm_num)
    have hk : ((i.branch_offset % 0x100000000).toNat : Int) =
        i.branch_offset % 0x100000000 := Int.toNat_of_nonneg h0
    omega
  · cases hl : i.link_flag with
    | false =>
        apply iff_of_false
        · intro heq
          unfold ArmInstruction.fmt_branch at heq
          rw [hl] at heq
          simp only [Bool.false_eq_true, if_false] at heq
          have hL := congrArg String.length heq
          simp only [String.length_append] at hL
          have e0 : ("" : String).length = 0 := rfl
          have e1 : ("b" : String).length = 1 := rfl
          have e2 : ("bl" : String).length = 2 := rfl
          rw [e0, e1, e2] at hL
          omega
        · simp [hl]
    | true =>
        apply iff_of_true
        · unfold ArmInstruction.fmt_branch
          rw [hl]
          simp only [if_true]
          have hbl : ("b" ++ "l" : String) = "bl" := rfl
          rw [hbl]
        · rfl

/-- A concrete linked branch: fetched at PC = 0x2000 with offset −8. -/
def exBranch : ArmInstruction :=
  { cond := ArmCond.AL, pc := 0x2000, link_flag := true, branch_offset := -8,
    rn := 0, rd := 0, load_flag := false, pre_index_flag := false,
    write_back_flag := false, transfer_size := 0,
    ldr_str_offset := BarrelShifterValue.ImmediateValue 0,
    halfword_data_transfer_type := none, ldr_str_hs_offset := none }

/-- Witness for C4 on `exBranch`: the rendered target is 0x2000 and the line
carries the link marker. -/
theorem c4_branch_render_witness :
    ((exBranch.branch_target : Int) =
      ((exBranch.pc : Int) + 8 + exBranch.branch_offset) % 0x100000000 ∧
    (exBranch.fmt_branch =
        "bl" ++ exBranch.cond.display ++ "\t" ++ format_hex exBranch.branch_target ↔
      exBranch.link_flag = true)) ∧
    exBranch.branch_target = 0x2000 ∧ exBranch.fmt_branch = "bl\t0x2000" :=
  ⟨c4_branch_render exBranch (by decide), by decide, by decide⟩

/-- The bracketed base-and-offset part of an immediate-offset rendering
(`[base, #imm]` / `[base, #imm]!` / `[base], #imm`), used to state which
comment follows it. -/
def rn_offset_bracket (i : ArmInstruction) (value : Int) : String :=
  if i.pre_index_flag then
    "[" ++ reg_string i.rn ++ ", " ++ ("#" ++ toString value) ++ "]"
      ++ (if i.write_back_flag then "!" else "")
  else
    "[" ++ reg_string i.rn ++ "], " ++ ("#" ++ toString value)

/-- C5: when the base register is the program counter and the offset is an
immediate, the trailing comment of the load/store rendering shows the
absolute effective address imm + fetch-PC + 8. -/
theorem c5_pc_relative_comment (i : ArmInstruction) (value : Int)
    (hrn : i.rn = REG_PC) (h0 : 0 ≤ value + (i.pc : Int) + 8)
    (h1 : value + (i.pc : Int) + 8 < 0x100000000) :
    i.fmt_rn_offset (BarrelShifterValue.ImmediateValue value) =
      some (rn_offset_bracket i value ++
        ("\t; " ++ format_hex ((value + (i.pc : Int) + 8).toNat))) := by
  have hb : (i.rn == REG_PC) = true := by simp [hrn]
  simp only [ArmInstruction.fmt_rn_offset, hb, if_true, rn_offset_bracket]
  rw [Int.emod_eq_of_lt h0 h1]

/-- A concrete PC-relative load: base register is the program counter,
fetched at PC = 0x1000, pre-indexed. -/
def exPcLoad : ArmInstruction :=
  { cond := ArmCond.AL, pc := 0x1000, link_flag := false, branch_offset := 0,
    rn := 15, rd := 0, load_flag := true, pre_index_flag := true,
    write_back_flag := false, transfer_size := 0,
    ldr_str_offset := BarrelShifterValue.ImmediateValue 4,
    halfword_data_transfer_type := none, ldr_str_hs_offset := none }

/-- Witness for C5: immediate +4 at PC = 0x1000 yields the comment value
0x100c. -/
theorem c5_pc_relative_comment_witness :
    exPcLoad.fmt_rn_offset (BarrelShifterValue.ImmediateValue 4) =
      some (rn_offset_bracket exPcLoad 4 ++
        ("\t; " ++ format_hex (((4 : Int) + (exPcLoad.pc : Int) + 8).toNat))) ∧
    exPcLoad.fmt_rn_offset (BarrelShifterValue.ImmediateValue 4) =
      some "[pc, #4]\t; 0x100c" :=
  ⟨c5_pc_relative_comment exPcLoad 4 (by decide) (by decide) (by decide), by decide⟩

/-- C10: with an immediate offset and a base register other than the program
counter, the rendering still appends a trailing hex comment, and the
comment shows the raw immediate value with no +8 pipeline correction. -/
theorem c10_non_pc_comment (i : ArmInstruction) (value : Int)
    (hrn : i.rn ≠ REG_PC) (h0 : 0 ≤ value) (h1 : value < 0x100000000) :
    i.fmt_rn_offset (BarrelShifterValue.ImmediateValue value) =
      some (rn_offset_bracket i value ++ ("\t; " ++ format_hex value.toNat)) := by
  have hb : (i.rn == REG_PC) = false := by simp [hrn]
  simp only [ArmInstruction.fmt_rn_offset, hb, Bool.false_eq_true, if_false,
    rn_offset_bracket]
  rw [Int.emod_eq_of_lt h0 h1]

/-- A concrete post-indexed load with write-back (translate form), base
register r1, immediate offset +4. -/
def exLdrT : ArmInstruction :=
  { cond := ArmCond.AL, pc := 0, link_flag := false, branch_offset := 0,
    rn := 1, rd := 0, load_flag := true, pre_index_flag := false,
    write_back_flag := true, transfer_size := 0,
    ldr_str_offset := BarrelShifterValue.ImmediateValue 4,
    halfword_data_transfer_type := none, ldr_str_hs_offset := none }

/-- Witness for C10: base r1 with immediate +4 comments `0x4`, uncorrected. -/
theorem c10_non_pc_comment_witness :
    exLdrT.fmt_rn_offset (BarrelShifterValue.ImmediateValue 4) =
      some (rn_offset_bracket exLdrT 4 ++ ("\t; " ++ format_hex ((4 : Int).toNat))) ∧
    exLdrT.fmt_rn_offset (BarrelShifterValue.ImmediateValue 4) =
      some "[r1], #4\t; 0x4" :=
  ⟨c10_non_pc_comment exLdrT 4 (by decide) (by decide) (by decide), by decide⟩

/-- C6: the load/store rendering carries the translate suffix `t` (between
the mnemonic and the condition suffix) exactly when the access is
post-indexed (pre-index bit clear) and the write-back bit is set. -/
theorem c6_translate_suffix (i : ArmInstruction) (rest : String)
    (h : i.fmt_rn_offset i.ldr_str_offset = some rest) :
    (i.fmt_ldr_str = some (ldr_str_mnemonic i ++ "t" ++ i.cond.display ++ "\t"
        ++ reg_string i.rd ++ ", " ++ rest)) ↔
      (i.pre_index_flag = false ∧ i.write_back_flag = true) := by
  unfold ArmInstruction.fmt_ldr_str
  rw [h]
  simp only [Option.map_some']
  constructor
  · intro heq
    cases hc : (!i.pre_index_flag && i.write_back_flag) with
    | false =>
        rw [hc] at heq
        simp only [Bool.false_eq_true, if_false, Option.some.injEq] at heq
        have hL := congrArg String.length heq
        simp only [String.length_append] at hL
        have e0 : ("" : String).length = 0 := rfl
        have e1 : ("t" : String).length = 1 := rfl
        rw [e0, e1] at hL
        exact absurd hL (by omega)
    | true =>
        simp only [Bool.and_eq_true, Bool.not_eq_true'] at hc
        exact hc
  · rintro ⟨hp, hw⟩
    simp [hp, hw]

/-- Witness for C6 on `exLdrT` (post-indexed, write-back set): the rendering
carries the `t` suffix. -/
theorem c6_translate_suffix_witness :
    exLdrT.fmt_ldr_str = some (ldr_str_mnemonic exLdrT ++ "t" ++ exLdrT.cond.display
      ++ "\t" ++ reg_string exLdrT.rd ++ ", " ++ "[r1], #4\t; 0x4") ∧
    exLdrT.fmt_ldr_str = some "ldrt\tr0, [r1], #4\t; 0x4" :=
  ⟨(c6_translate_suffix exLdrT "[r1], #4\t; 0x4" (by decide)).mpr (by decide),
    by decide⟩

/-- C7: when the halfword/signed-transfer type field matches no recognized
pattern, the rendering succeeds and produces the explicit undefined
marker. -/
theorem c7_undefined_marker (i : ArmInstruction)
    (h : i.halfword_data_transfer_type = none) :
    i.fmt_ldr_str_hs = some "<undefined>" := by
  unfold ArmInstruction.fmt_ldr_str_hs
  rw [h]

/-- Witness for C7 on a concrete instruction with an unrecognized transfer
type field. -/
theorem c7_undefined_marker_witness : exLdrT.fmt_ldr_str_hs = some "<undefined>" :=
  c7_undefined_marker exLdrT (by decide)
